import Mathlib

/-!
# Star catalogue service (`main.go`): handlers, envelope and routing

A shallow embedding of the HTTP handlers `healthCheck`, `getAllStars` and
`getStarSearch`, of the `Response` envelope and its JSON rendering, and of the
route table and CORS middleware registered in `main`.

Conventions of the embedding:

* a handler is a function on a connection state `Conn`, which holds the
  `ResponseWriter` (header map, status line, what was written to the body) and
  the list of database queries issued so far;
* the database is an oracle `DB`: the text and arguments of a query determine
  either a driver error or the rows that `rows.Next()` delivers, each row
  carrying the outcome of `rows.Scan` on it;
* the request carries the outcome of decoding its body into the anonymous
  `searchRequest` struct;
* `log.Printf` calls have no effect on the response and are left out;
* the libraries the program calls are embedded by what they do on the values
  this program gives them: `net/http` (`ResponseWriter`, `http.Error`),
  `encoding/json` (`encodeResponse`) and `gorilla/mux` (`matchRoutes`,
  `cleanPath`, `serveHTTP`).
-/

namespace Wildberries

/-! ## Data model -/

/-- A Go `float32`, carried as its IEEE-754 bit pattern (read modulo `2^32`). -/
structure GoFloat32 where
  bits : Nat
deriving DecidableEq, Repr

/-- Neither an infinity nor a NaN: the exponent field is not all ones. -/
def GoFloat32.isFinite (f : GoFloat32) : Bool :=
  (f.bits % 2 ^ 32) / 2 ^ 23 % 256 != 255

/-- The record `Stars` of `main.go`. -/
structure Stars where
  ID : Int
  Name : String
  AlternativeName : String
  Constellation : String
  Distance : GoFloat32
  Mass : GoFloat32
deriving DecidableEq, Repr

/-- A Go value of type `[]Stars`: the nil slice, or a slice with a backing array.
`var stars []Stars` is `nil`; `append` always yields `elems`. -/
inductive StarSlice where
  | nil
  | elems (l : List Stars)
deriving DecidableEq, Repr

/-- The elements of a slice, in order. -/
def StarSlice.toList : StarSlice → List Stars
  | .nil => []
  | .elems l => l

/-- Go `len(s)`. -/
def StarSlice.len (s : StarSlice) : Nat := s.toList.length

/-- Go `append(s, x)`. -/
def StarSlice.append : StarSlice → Stars → StarSlice
  | .nil, x => .elems [x]
  | .elems l, x => .elems (l ++ [x])

/-- The envelope `Response`. `Data` has type `interface{}`: `none` is the nil
interface (the field is not set), `some s` an interface holding the slice `s`. -/
structure Response where
  Success : Bool
  Message : String
  Data : Option StarSlice := none
deriving DecidableEq, Repr

/-! ## JSON rendering of the envelope (`encoding/json`) -/

/-- A JSON value; a number is an integer or a float carried as is. -/
inductive JSON where
  | null
  | bool (b : Bool)
  | int (n : Int)
  | float (f : GoFloat32)
  | str (s : String)
  | arr (l : List JSON)
  | obj (members : List (String × JSON))

/-- The member `k` of a JSON object, `none` when the object has no such member
or the value is not an object. -/
def JSON.member (k : String) : JSON → Option JSON
  | .obj members => members.lookup k
  | _ => none

/-- A float field: the encoder rejects NaN and the infinities. -/
def encodeFloat (f : GoFloat32) : Option JSON :=
  if f.isFinite then some (.float f) else none

/-- A `Stars` value, by its `json` struct tags. -/
def encodeStars (s : Stars) : Option JSON :=
  match encodeFloat s.Distance, encodeFloat s.Mass with
  | some d, some m =>
    some (.obj [("id", .int s.ID), ("name", .str s.Name),
      ("alternative_name", .str s.AlternativeName),
      ("constellation", .str s.Constellation), ("distance", d), ("mass", m)])
  | _, _ => none

/-- A list of records as a JSON array. -/
def encodeList : List Stars → Option (List JSON)
  | [] => some []
  | s :: rest =>
    match encodeStars s, encodeList rest with
    | some j, some js => some (j :: js)
    | _, _ => none

/-- A `[]Stars` value: the nil slice is encoded as `null`. -/
def encodeSlice : StarSlice → Option JSON
  | .nil => some .null
  | .elems l => (encodeList l).map .arr

/-- The JSON text of an envelope (`none`: the encoder fails and writes nothing).
The tag `omitempty` on `Data` leaves the member out for the nil interface only;
an interface holding a slice is not nil, whatever the slice. -/
def encodeResponse (r : Response) : Option JSON :=
  match r.Data with
  | none => some (.obj [("success", .bool r.Success), ("message", .str r.Message)])
  | some s =>
    match encodeSlice s with
    | some d =>
      some (.obj [("success", .bool r.Success), ("message", .str r.Message), ("data", d)])
    | none => none

/-! ## Response writer -/

/-- What is written to the response body: an envelope rendered by
`json.NewEncoder(w).Encode`, or plain text written by the router. -/
inductive Chunk where
  | envelope (r : Response)
  | text (s : String)
deriving DecidableEq, Repr

/-- State of an `http.ResponseWriter`: the header map, the status line once it
has been written, and the body chunks in order. -/
structure ResponseWriter where
  header : List (String × String) := []
  status : Option Nat := none
  body : List Chunk := []
  -- the codes passed to `WriteHeader` so far, ignored calls included
  writeHeaderCalls : List Nat := []
deriving DecidableEq, Repr

/-- `w.Header().Set(k, v)`: replaces the value of `k`. Once the status line is
out, the header map no longer reaches the client. -/
def ResponseWriter.headerSet (w : ResponseWriter) (k v : String) : ResponseWriter :=
  match w.status with
  | some _ => w
  | none => { w with header := w.header.filter (fun p => p.1 != k) ++ [(k, v)] }

/-- `w.WriteHeader(code)`: only the first call takes effect. -/
def ResponseWriter.writeHeader (w : ResponseWriter) (code : Nat) : ResponseWriter :=
  match w.status with
  | some _ => { w with writeHeaderCalls := w.writeHeaderCalls ++ [code] }
  | none => { w with status := some code, writeHeaderCalls := w.writeHeaderCalls ++ [code] }

/-- A write to the body; the first write without a status sends `200 OK`. -/
def ResponseWriter.write (w : ResponseWriter) (c : Chunk) : ResponseWriter :=
  { w with status := some (w.status.getD 200), body := w.body ++ [c] }

/-- `json.NewEncoder(w).Encode(r)`: the encoder first renders `r` in full; when
that fails (`encodeResponse r = none`) it returns the error, which the handlers
drop, and nothing is written; otherwise it writes the text to `w` in one
write. The body records the envelope whose text was written. -/
def ResponseWriter.encode (w : ResponseWriter) (r : Response) : ResponseWriter :=
  match encodeResponse r with
  | none => w
  | some _ => w.write (.envelope r)

/-- The status the client receives: `200` when the handler never wrote one. -/
def ResponseWriter.finalStatus (w : ResponseWriter) : Nat := w.status.getD 200

/-- The envelopes on the body, in order. -/
def ResponseWriter.envelopes (w : ResponseWriter) : List Response :=
  w.body.filterMap fun c =>
    match c with
    | .envelope r => some r
    | .text _ => none

/-! ## Database and request -/

/-- A row delivered by `rows.Next()`, with the outcome of `rows.Scan` into a
fresh `Stars` value. -/
inductive Row where
  | ok (s : Stars)
  | bad (err : String)
deriving DecidableEq, Repr

/-- One call of `app.DB.Query(text, args...)`. -/
structure QueryCall where
  text : String
  args : List String
deriving DecidableEq, Repr

/-- The database behind `app.DB`: a query yields a driver error or its rows. -/
abbrev DB := String → List String → Except String (List Row)

/-- The anonymous struct `searchRequest` of `getStarSearch`. -/
structure SearchRequest where
  Field : String
  Value : String
deriving DecidableEq, Repr

/-- An incoming request. `path` is `r.URL.Path`. `decoded` is the outcome of
`json.NewDecoder(r.Body).Decode(&searchRequest)`: an error, or the struct, in
which a key missing from the body leaves the empty string. `urlWithPath p` is
the text `url.String()` of the request URL with its path replaced by `p`
(percent-encoded, the query string kept); the other parts of the URL enter the
program nowhere else. -/
structure Request where
  method : String
  path : String
  decoded : Except String SearchRequest
  urlWithPath : String → String

/-- Connection state threaded through a handler. -/
structure Conn where
  w : ResponseWriter := {}
  queries : List QueryCall := []
deriving DecidableEq, Repr

def Conn.headerSet (c : Conn) (k v : String) : Conn := { c with w := c.w.headerSet k v }

def Conn.writeHeader (c : Conn) (code : Nat) : Conn := { c with w := c.w.writeHeader code }

def Conn.encode (c : Conn) (r : Response) : Conn := { c with w := c.w.encode r }

/-- Records the call `app.DB.Query(text, args...)`. -/
def Conn.query (c : Conn) (text : String) (args : List String) : Conn :=
  { c with queries := c.queries ++ [⟨text, args⟩] }

/-! ## Handlers -/

/-- The loop `for rows.Next() { ... Scan ... continue / append }`. -/
def scanRows : List Row → StarSlice → StarSlice
  | [], acc => acc
  | .ok s :: rest, acc => scanRows rest (acc.append s)
  | .bad _ :: rest, acc => scanRows rest acc

/-- The query text of `getAllStars`. -/
def allStarsQuery : String :=
  "SELECT sn.id, sn.name, sn.alternative_name, c.name AS constellation, s.distance_light_years AS distance, s.solar_masses AS mass FROM stars s JOIN star_names sn ON s.star_name_id = sn.id JOIN constellations c on s.constellation_id = c.id"

/-- Handler `healthCheck`. -/
def healthCheck (c : Conn) (_r : Request) : Conn :=
  let c := c.headerSet "Content-Type" "application/json"
  c.encode { Success := true, Message := "Сервер работает" }

/-- Handler `getAllStars`. -/
def getAllStars (db : DB) (c : Conn) (_r : Request) : Conn :=
  let c := c.headerSet "Content-Type" "application/json"
  let c := c.query allStarsQuery []
  match db allStarsQuery [] with
  | .error _ =>
    let c := c.writeHeader 500
    c.encode { Success := false, Message := "Ошибка получения данных" }
  | .ok rows =>
    let star_res := scanRows rows .nil
    c.encode { Success := true, Message := "Звезды получены", Data := some star_res }

/-- The `switch searchRequest.Field` of `getStarSearch`: the query of a field,
`none` for the `default` branch. -/
def searchQuery (field : String) : Option String :=
  match field with
  | "name" => some "SELECT sn.id, sn.name, sn.alternative_name, c.name AS constellation, s.distance_light_years AS distance, s.solar_masses AS mass FROM stars s JOIN star_names sn ON s.star_name_id = sn.id JOIN constellations c on s.constellation_id = c.id WHERE sn.name ILIKE $1"
  | "constellation" => some "SELECT sn.id, sn.name, sn.alternative_name, c.name AS constellation, s.distance_light_years AS distance, s.solar_masses AS mass FROM stars s JOIN star_names sn ON s.star_name_id = sn.id JOIN constellations c on s.constellation_id = c.id WHERE c.name ILIKE $1"
  | "distance" => some "SELECT sn.id, sn.name, sn.alternative_name, c.name AS constellation, s.distance_light_years AS distance, s.solar_masses AS mass FROM stars s JOIN star_names sn ON s.star_name_id = sn.id JOIN constellations c on s.constellation_id = c.id WHERE s.distance_light_years = $1"
  | "mass" => some "SELECT sn.id, sn.name, sn.alternative_name, c.name AS constellation, s.distance_light_years AS distance, s.solar_masses AS mass FROM stars s JOIN star_names sn ON s.star_name_id = sn.id JOIN constellations c on s.constellation_id = c.id WHERE s.solar_masses = $1"
  | _ => none

/-- Handler `getStarSearch`. -/
def getStarSearch (db : DB) (c : Conn) (r : Request) : Conn :=
  let c := c.headerSet "Content-Type" "application/json"
  match r.decoded with
  | .error _ =>
    let c := c.writeHeader 400
    c.encode { Success := false, Message := "Неверный формат данных" }
  | .ok searchRequest =>
    if searchRequest.Field = "" ∨ searchRequest.Value = "" then
      let c := c.writeHeader 400
      c.encode { Success := false, Message := "Поле field и value обязательны" }
    else
      match searchQuery searchRequest.Field with
      | none =>
        let c := c.writeHeader 400
        c.encode { Success := false, Message := "Неверное поле для поиска" }
      | some query =>
        let c := c.query query [searchRequest.Value]
        match db query [searchRequest.Value] with
        | .error _ =>
          let c := c.writeHeader 500
          c.encode { Success := false, Message := "Ошибка выполнения поиска" }
        | .ok rows =>
          let stars := scanRows rows .nil
          c.encode
            { Success := true
              Message := "Найдено звезд: " ++ Nat.repr stars.len
              Data := some stars }

/-! ## Router (`gorilla/mux`) and CORS middleware -/

/-- A handler, once the application (the database handle) is fixed. -/
abbrev Handler := Conn → Request → Conn

/-- A route: `r.HandleFunc(path, handler).Methods(methods...)`. -/
structure Route where
  path : String
  methods : List String
  handler : DB → Handler

/-- The route table of `main`, in registration order. -/
def routes : List Route :=
  [ ⟨"/health", ["GET"], fun _ => healthCheck⟩,
    ⟨"/api/stars/search", ["POST", "OPTIONS"], getStarSearch⟩,
    ⟨"/api/stars", ["GET"], getAllStars⟩ ]

/-- The middleware passed to `r.Use` in `main`. -/
def corsMiddleware (next : Handler) : Handler := fun c r =>
  let c := c.headerSet "Access-Control-Allow-Origin" "*"
  let c := c.headerSet "Access-Control-Allow-Methods" "GET, POST, PUT, DELETE, OPTIONS"
  let c := c.headerSet "Access-Control-Allow-Headers" "Content-Type"
  let c := c.headerSet "Access-Control-Max-Age" "3600"
  if r.method = "OPTIONS" then
    c.writeHeader 200
  else
    next c r

/-- Outcome of `Router.Match`. -/
inductive RouteMatch where
  | found (rt : Route)
  | methodMismatch
  | notFound

/-- The loop of `Router.Match` over the routes, each tried by `Route.Match`: a
route matches when its path template (here a literal path, matched whole) and
its method list both match; a route whose path matches and whose methods do
not leaves `ErrMethodMismatch` behind (`mismatch`) and the loop goes on. -/
def matchRoutes (req : Request) : List Route → Bool → RouteMatch
  | [], mismatch => if mismatch then .methodMismatch else .notFound
  | rt :: rest, mismatch =>
    if rt.path = req.path then
      if req.method ∈ rt.methods then .found rt
      else matchRoutes req rest true
    else matchRoutes req rest mismatch

/-- Splits a path at every slash. -/
def splitSlash : List Char → List (List Char)
  | [] => [[]]
  | c :: cs =>
    match splitSlash cs with
    | [] => [[]]
    | seg :: rest => if c = '/' then [] :: seg :: rest else (c :: seg) :: rest

/-- Resolves the elements of a rooted path from left to right on a stack
(kept reversed): empty and `.` elements are dropped, `..` drops the element
before it. -/
def cleanSegments : List (List Char) → List (List Char) → List (List Char)
  | [], stack => stack.reverse
  | seg :: rest, stack =>
    if seg = [] ∨ seg = ['.'] then cleanSegments rest stack
    else if seg = ['.', '.'] then cleanSegments rest stack.tail
    else cleanSegments rest (seg :: stack)

/-- Joins path elements, each preceded by a slash. -/
def joinSlash : List (List Char) → List Char
  | [] => []
  | seg :: rest => '/' :: seg ++ joinSlash rest

/-- The router's `cleanPath`: the canonical form of a request path
(`path.Clean` of the rooted path, a trailing slash kept). -/
def cleanPath (p : String) : String :=
  let cs := if p.data.head? = some '/' then p.data else '/' :: p.data
  let np := joinSlash (cleanSegments (splitSlash cs) [])
  if np = [] then "/"
  else if cs.getLast? = some '/' then String.mk (np ++ ['/'])
  else String.mk np

/-- The handler `http.NotFoundHandler()`. -/
def notFound (c : Conn) : Conn :=
  let c := c.headerSet "Content-Type" "text/plain; charset=utf-8"
  let c := c.headerSet "X-Content-Type-Options" "nosniff"
  let c := c.writeHeader 404
  { c with w := c.w.write (.text "404 page not found\n") }

/-- The router `r` handed to `http.ListenAndServe`, on a fresh connection:
`Router.ServeHTTP`. A path that is not canonical is redirected. Otherwise
`Router.Match` wraps the handler of the matched route in the middlewares of
`r.Use`; when no route matches there is no such chain, and the request goes to
the router's method-not-allowed handler (`ErrMethodMismatch`) or to
`http.NotFoundHandler()`, as `main` sets neither `MethodNotAllowedHandler` nor
`NotFoundHandler`. -/
def serveHTTP (db : DB) (req : Request) : Conn :=
  let c : Conn := {}
  if cleanPath req.path ≠ req.path then
    let c := c.headerSet "Location" (req.urlWithPath (cleanPath req.path))
    c.writeHeader 301
  else
    match matchRoutes req routes false with
    | .found rt => corsMiddleware (rt.handler db) c req
    | .methodMismatch => c.writeHeader 405
    | .notFound => notFound c

/-- The routes and methods registered in `main`. -/
def registered (method path : String) : Bool :=
  routes.any fun rt => decide (rt.path = path ∧ method ∈ rt.methods)

/-! ## Specification-side notions -/

/-- A database whose every query succeeds with the given rows. -/
def constDB (rows : List Row) : DB := fun _ _ => .ok rows

/-- A database whose every query fails with the given driver error. -/
def failingDB (err : String) : DB := fun _ _ => .error err

/-- A sample record. -/
def rigel : Stars :=
  { ID := 7, Name := "Rigel", AlternativeName := "Beta Orionis", Constellation := "Orion"
    Distance := ⟨0x44570000⟩, Mass := ⟨0x41a80000⟩ }

/-- A sample record. -/
def sirius : Stars :=
  { ID := 1, Name := "Sirius", AlternativeName := "Alpha Canis Majoris"
    Constellation := "Canis Major", Distance := ⟨0x4109999a⟩, Mass := ⟨0x40013b64⟩ }

/-- A request without a body and without a query string: decoding it fails at
end of input. -/
def bodyless (method path : String) : Request :=
  { method := method, path := path, decoded := .error "EOF", urlWithPath := fun p => p }

/-- The JSON texts of the envelopes on the body, in order. -/
def Conn.jsonBody (c : Conn) : List (Option JSON) := c.w.envelopes.map encodeResponse

/-- The four headers set by the CORS middleware. -/
def corsHeaders : List (String × String) :=
  [("Access-Control-Allow-Origin", "*"),
   ("Access-Control-Allow-Methods", "GET, POST, PUT, DELETE, OPTIONS"),
   ("Access-Control-Allow-Headers", "Content-Type"),
   ("Access-Control-Max-Age", "3600")]

/-- A POST request to the search route, without a query string, whose body
decodes to `field`, `value`. -/
def searchPost (field value : String) : Request :=
  { method := "POST", path := "/api/stars/search", decoded := .ok ⟨field, value⟩
    urlWithPath := fun p => p }

/-! ## Basic facts -/

/-- An envelope without data always renders, so `Encode` writes it. -/
theorem encode_no_data (w : ResponseWriter) (success : Bool) (msg : String) :
    w.encode ⟨success, msg, none⟩ = w.write (.envelope ⟨success, msg, none⟩) := by
  simp [ResponseWriter.encode, encodeResponse]

/-- An envelope that renders is written. -/
theorem encode_rendered (w : ResponseWriter) (e : Response) (j : JSON)
    (h : encodeResponse e = some j) : w.encode e = w.write (.envelope e) := by
  simp [ResponseWriter.encode, h]

/-- An envelope that does not render leaves the response untouched. -/
theorem encode_failed (w : ResponseWriter) (e : Response) (h : encodeResponse e = none) :
    w.encode e = w := by
  simp [ResponseWriter.encode, h]

theorem searchQuery_eq_some (field q : String) (h : searchQuery field = some q) :
    field = "name" ∨ field = "constellation" ∨ field = "distance" ∨ field = "mass" := by
  unfold searchQuery at h
  split at h <;> simp_all

theorem searchQuery_eq_none (field : String) (h1 : field ≠ "name")
    (h2 : field ≠ "constellation") (h3 : field ≠ "distance") (h4 : field ≠ "mass") :
    searchQuery field = none := by
  unfold searchQuery
  split <;> simp_all

/-! ## The search handler: validation and dispatch -/

/-- The four branches of the switch, as the join of `getAllStars` followed by
a WHERE clause. -/
theorem searchQuery_allowed :
    searchQuery "name" = some (allStarsQuery ++ " WHERE " ++ "sn.name ILIKE $1") ∧
    searchQuery "constellation" = some (allStarsQuery ++ " WHERE " ++ "c.name ILIKE $1") ∧
    searchQuery "distance"
      = some (allStarsQuery ++ " WHERE " ++ "s.distance_light_years = $1") ∧
    searchQuery "mass" = some (allStarsQuery ++ " WHERE " ++ "s.solar_masses = $1") := by
  simp [searchQuery, allStarsQuery]

/-- Past validation and dispatch, `getStarSearch` issues the query of the field
and answers from its outcome. -/
theorem getStarSearch_dispatch (db : DB) (c : Conn) (r : Request) (field value q : String)
    (hdec : r.decoded = .ok ⟨field, value⟩) (hvalue : value ≠ "")
    (hq : searchQuery field = some q) :
    getStarSearch db c r =
      match db q [value] with
      | .error _ =>
        (((c.headerSet "Content-Type" "application/json").query q [value]).writeHeader 500).encode
          { Success := false, Message := "Ошибка выполнения поиска" }
      | .ok rows =>
        ((c.headerSet "Content-Type" "application/json").query q [value]).encode
          { Success := true
            Message := "Найдено звезд: " ++ Nat.repr (scanRows rows .nil).len
            Data := some (scanRows rows .nil) } := by
  have hfield : field ≠ "" := by
    rintro rfl
    simp [searchQuery] at hq
  simp only [getStarSearch, hdec, hq]
  simp [hvalue, hfield]

/-- C1: when the body decodes to an allowed field and a non-empty value,
`getStarSearch` issues exactly one query: the three-table join of `getAllStars`
followed by the WHERE clause of the field, with the value, unmodified, as its
only argument. -/
theorem getStarSearch_issues_field_query (db : DB) (c : Conn) (r : Request)
    (field value : String) (hdec : r.decoded = .ok ⟨field, value⟩)
    (hfield : field ∈ ["name", "constellation", "distance", "mass"])
    (hvalue : value ≠ "") :
    ∃ clause,
      (field, clause) ∈
        [("name", "sn.name ILIKE $1"), ("constellation", "c.name ILIKE $1"),
         ("distance", "s.distance_light_years = $1"), ("mass", "s.solar_masses = $1")] ∧
      (getStarSearch db c r).queries
        = c.queries ++ [⟨allStarsQuery ++ " WHERE " ++ clause, [value]⟩] := by
  have key : ∀ clause, searchQuery field = some (allStarsQuery ++ " WHERE " ++ clause) →
      (getStarSearch db c r).queries
        = c.queries ++ [⟨allStarsQuery ++ " WHERE " ++ clause, [value]⟩] := by
    intro clause hq
    rw [getStarSearch_dispatch db c r field value _ hdec hvalue hq]
    cases db (allStarsQuery ++ " WHERE " ++ clause) [value] <;>
      simp [Conn.query, Conn.headerSet, Conn.writeHeader, Conn.encode]
  obtain ⟨h1, h2, h3, h4⟩ := searchQuery_allowed
  simp only [List.mem_cons, List.mem_singleton, List.not_mem_nil, or_false] at hfield
  rcases hfield with h | h | h | h <;> subst h
  · exact ⟨"sn.name ILIKE $1", by simp, key _ h1⟩
  · exact ⟨"c.name ILIKE $1", by simp, key _ h2⟩
  · exact ⟨"s.distance_light_years = $1", by simp, key _ h3⟩
  · exact ⟨"s.solar_masses = $1", by simp, key _ h4⟩

theorem getStarSearch_issues_field_query_witness :
    ∃ clause,
      ("mass", clause) ∈
        [("name", "sn.name ILIKE $1"), ("constellation", "c.name ILIKE $1"),
         ("distance", "s.distance_light_years = $1"), ("mass", "s.solar_masses = $1")] ∧
      (getStarSearch (constDB [.ok sirius]) {} (searchPost "mass" "1.0")).queries
        = [] ++ [⟨allStarsQuery ++ " WHERE " ++ clause, ["1.0"]⟩] :=
  getStarSearch_issues_field_query (constDB [.ok sirius]) {} (searchPost "mass" "1.0")
    "mass" "1.0" rfl (by simp) (by decide)

/-- C2: a body that decodes to a field other than the four allowed names
(compared exactly) is answered, whatever the value, with status 400 and one
envelope with success=false, and no query is issued. -/
theorem getStarSearch_rejects_unknown_field (db : DB) (c : Conn) (r : Request)
    (field value : String) (hc : c.w.status = none)
    (hdec : r.decoded = .ok ⟨field, value⟩)
    (hfield : field ∉ ["name", "constellation", "distance", "mass"]) :
    ∃ msg,
      (getStarSearch db c r).w.status = some 400 ∧
      (getStarSearch db c r).w.body = c.w.body ++ [.envelope ⟨false, msg, none⟩] ∧
      (getStarSearch db c r).queries = c.queries := by
  simp only [List.mem_cons, List.mem_singleton, List.not_mem_nil, or_false, not_or] at hfield
  obtain ⟨h1, h2, h3, h4⟩ := hfield
  have hq := searchQuery_eq_none field h1 h2 h3 h4
  by_cases he : field = "" ∨ value = ""
  · refine ⟨"Поле field и value обязательны", ?_⟩
    simp [getStarSearch, hdec, he, Conn.headerSet, Conn.writeHeader, Conn.encode,
      ResponseWriter.headerSet, ResponseWriter.writeHeader, encode_no_data,
      ResponseWriter.write, hc]
  · refine ⟨"Неверное поле для поиска", ?_⟩
    simp [getStarSearch, hdec, he, hq, Conn.headerSet, Conn.writeHeader, Conn.encode,
      ResponseWriter.headerSet, ResponseWriter.writeHeader, encode_no_data,
      ResponseWriter.write, hc]

theorem getStarSearch_rejects_unknown_field_witness :
    ∃ msg,
      (getStarSearch (constDB [.ok rigel]) {} (searchPost "Name" "Rigel")).w.status = some 400 ∧
      (getStarSearch (constDB [.ok rigel]) {} (searchPost "Name" "Rigel")).w.body
        = [] ++ [.envelope ⟨false, msg, none⟩] ∧
      (getStarSearch (constDB [.ok rigel]) {} (searchPost "Name" "Rigel")).queries = [] :=
  getStarSearch_rejects_unknown_field (constDB [.ok rigel]) {} (searchPost "Name" "Rigel")
    "Name" "Rigel" rfl rfl (by decide)

/-- C3: a body that decodes with an empty field or an empty value (a missing
key decodes to the empty string) is answered with status 400 and one envelope
with success=false, whatever the other of the two is, and no query is issued. -/
theorem getStarSearch_rejects_empty (db : DB) (c : Conn) (r : Request)
    (field value : String) (hc : c.w.status = none)
    (hdec : r.decoded = .ok ⟨field, value⟩) (hempty : field = "" ∨ value = "") :
    (getStarSearch db c r).w.status = some 400 ∧
    (getStarSearch db c r).w.body
      = c.w.body ++ [.envelope ⟨false, "Поле field и value обязательны", none⟩] ∧
    (getStarSearch db c r).queries = c.queries := by
  simp [getStarSearch, hdec, hempty, Conn.headerSet, Conn.writeHeader, Conn.encode,
    ResponseWriter.headerSet, ResponseWriter.writeHeader, encode_no_data,
    ResponseWriter.write, hc]

theorem getStarSearch_rejects_empty_witness :
    (getStarSearch (constDB [.ok rigel]) {} (searchPost "name" "")).w.status = some 400 ∧
    (getStarSearch (constDB [.ok rigel]) {} (searchPost "name" "")).w.body
      = [] ++ [.envelope ⟨false, "Поле field и value обязательны", none⟩] ∧
    (getStarSearch (constDB [.ok rigel]) {} (searchPost "name" "")).queries = [] :=
  getStarSearch_rejects_empty (constDB [.ok rigel]) {} (searchPost "name" "")
    "name" "" rfl rfl (Or.inr rfl)

/-! ## Query outcomes -/

/-- The outcome of `getAllStars`, by the outcome of its query. -/
theorem getAllStars_outcome (db : DB) (c : Conn) (r : Request) :
    getAllStars db c r =
      match db allStarsQuery [] with
      | .error _ =>
        (((c.headerSet "Content-Type" "application/json").query allStarsQuery []).writeHeader
          500).encode { Success := false, Message := "Ошибка получения данных" }
      | .ok rows =>
        ((c.headerSet "Content-Type" "application/json").query allStarsQuery []).encode
          { Success := true, Message := "Звезды получены", Data := some (scanRows rows .nil) } := by
  simp only [getAllStars]

/-- C9: when the query fails, `getAllStars` and `getStarSearch` (past
validation) answer with status 500 and one envelope with success=false, a
fixed message that is the same for every driver error, and no data: the
rendered envelope has no data member. -/
theorem query_failure_is_500 (db : DB) (c : Conn) (r : Request) (err : String)
    (hc : c.w.status = none) :
    (db allStarsQuery [] = .error err →
      (getAllStars db c r).w.status = some 500 ∧
      (getAllStars db c r).w.body
        = c.w.body ++ [.envelope ⟨false, "Ошибка получения данных", none⟩]) ∧
    (∀ field value q, r.decoded = .ok ⟨field, value⟩ → value ≠ "" →
      searchQuery field = some q → db q [value] = .error err →
      (getStarSearch db c r).w.status = some 500 ∧
      (getStarSearch db c r).w.body
        = c.w.body ++ [.envelope ⟨false, "Ошибка выполнения поиска", none⟩]) ∧
    encodeResponse ⟨false, "Ошибка получения данных", none⟩
      = some (.obj [("success", .bool false), ("message", .str "Ошибка получения данных")]) ∧
    encodeResponse ⟨false, "Ошибка выполнения поиска", none⟩
      = some (.obj [("success", .bool false), ("message", .str "Ошибка выполнения поиска")]) := by
  refine ⟨?_, ?_, rfl, rfl⟩
  · intro hdb
    simp [getAllStars_outcome, hdb, Conn.headerSet, Conn.encode, Conn.query, Conn.writeHeader,
      ResponseWriter.headerSet, encode_no_data, ResponseWriter.write,
      ResponseWriter.writeHeader, hc]
  · intro field value q hdec hvalue hq hdb
    simp [getStarSearch_dispatch db c r field value q hdec hvalue hq, hdb, Conn.headerSet,
      Conn.encode, Conn.query, Conn.writeHeader, ResponseWriter.headerSet,
      encode_no_data, ResponseWriter.write, ResponseWriter.writeHeader, hc]

theorem query_failure_is_500_witness :
    ((getAllStars (failingDB "pq: connection refused") {} (searchPost "mass" "1.0")).w.status
        = some 500 ∧
      (getAllStars (failingDB "pq: connection refused") {} (searchPost "mass" "1.0")).w.body
        = [] ++ [.envelope ⟨false, "Ошибка получения данных", none⟩]) ∧
    ((getStarSearch (failingDB "pq: connection refused") {} (searchPost "mass" "1.0")).w.status
        = some 500 ∧
      (getStarSearch (failingDB "pq: connection refused") {} (searchPost "mass" "1.0")).w.body
        = [] ++ [.envelope ⟨false, "Ошибка выполнения поиска", none⟩]) := by
  have h := query_failure_is_500 (failingDB "pq: connection refused") {}
    (searchPost "mass" "1.0") "pq: connection refused" rfl
  exact ⟨h.1 rfl, h.2.1 "mass" "1.0" _ rfl (by decide) searchQuery_allowed.2.2.2 rfl⟩

/-! ## The empty result set -/

/-- C6, as the claim states it, fails: with zero rows the rendered envelope of
`getAllStars` has a data member, and it is `null`, not the empty list. -/
theorem getAllStars_empty_data_is_null :
    ∃ j, (getAllStars (constDB []) {} (bodyless "GET" "/api/stars")).jsonBody = [some j] ∧
      j.member "data" = some .null ∧
      ¬ (j.member "data" = none ∨ j.member "data" = some (.arr [])) :=
  ⟨.obj [("success", .bool true), ("message", .str "Звезды получены"), ("data", .null)],
    rfl, rfl, by simp [JSON.member, List.lookup]⟩

/-- C6, amended: when the query of `getAllStars` succeeds with zero rows, the
response has status 200 and one envelope with success=true whose data is the
nil slice; rendered, the data member is present and is `null`. -/
theorem getAllStars_empty_result (db : DB) (c : Conn) (r : Request)
    (hc : c.w.status = none) (hdb : db allStarsQuery [] = .ok []) :
    (getAllStars db c r).w.status = some 200 ∧
    (getAllStars db c r).w.body
      = c.w.body ++ [.envelope ⟨true, "Звезды получены", some .nil⟩] ∧
    encodeResponse ⟨true, "Звезды получены", some .nil⟩
      = some (.obj [("success", .bool true), ("message", .str "Звезды получены"),
          ("data", .null)]) := by
  have henc : encodeResponse ⟨true, "Звезды получены", some .nil⟩
      = some (.obj [("success", .bool true), ("message", .str "Звезды получены"),
          ("data", .null)]) := rfl
  refine ⟨?_, ?_, henc⟩ <;>
    simp [getAllStars_outcome, hdb, scanRows, Conn.headerSet, Conn.encode, Conn.query,
      ResponseWriter.headerSet, encode_rendered _ _ _ henc, ResponseWriter.write, hc]

theorem getAllStars_empty_result_witness :
    (getAllStars (constDB []) {} (bodyless "GET" "/api/stars")).w.status = some 200 ∧
    (getAllStars (constDB []) {} (bodyless "GET" "/api/stars")).w.body
      = [] ++ [.envelope ⟨true, "Звезды получены", some .nil⟩] ∧
    encodeResponse ⟨true, "Звезды получены", some .nil⟩
      = some (.obj [("success", .bool true), ("message", .str "Звезды получены"),
          ("data", .null)]) :=
  getAllStars_empty_result (constDB []) {} (bodyless "GET" "/api/stars") rfl rfl

/-! ## Scanned rows -/

/-- C4, as the claim states it, fails: `/health` is registered for GET only,
so an OPTIONS request to it is answered by the router with 405, and without
the CORS headers. -/
theorem options_health_is_405 :
    (serveHTTP (constDB []) (bodyless "OPTIONS" "/health")).w.finalStatus = 405 ∧
    (serveHTTP (constDB []) (bodyless "OPTIONS" "/health")).w.header = [] ∧
    ¬ ((serveHTTP (constDB []) (bodyless "OPTIONS" "/health")).w.finalStatus = 200 ∧
      ∀ h ∈ corsHeaders, h ∈ (serveHTTP (constDB []) (bodyless "OPTIONS" "/health")).w.header) := by
  decide

/-- C4, amended: an OPTIONS request to `/api/stars/search` gets status 200
with the four CORS headers and nothing else: `getStarSearch` is not invoked
(the answer does not depend on the body or the database, no envelope, no
query). An OPTIONS request to `/health` or `/api/stars`, registered for GET
only, gets the router's 405 without any header; the route's handler is not
invoked there either. -/
theorem options_requests (db : DB) (decoded : Except String SearchRequest)
    (urlWithPath : String → String) :
    serveHTTP db ⟨"OPTIONS", "/api/stars/search", decoded, urlWithPath⟩
      = { w := { header := corsHeaders, status := some 200, body := []
                 writeHeaderCalls := [200] }
          queries := [] } ∧
    serveHTTP db ⟨"OPTIONS", "/health", decoded, urlWithPath⟩
      = { w := { header := [], status := some 405, body := [], writeHeaderCalls := [405] }
          queries := [] } ∧
    serveHTTP db ⟨"OPTIONS", "/api/stars", decoded, urlWithPath⟩
      = { w := { header := [], status := some 405, body := [], writeHeaderCalls := [405] }
          queries := [] } := by
  have h1 : cleanPath "/api/stars/search" = "/api/stars/search" := by decide
  have h2 : cleanPath "/health" = "/health" := by decide
  have h3 : cleanPath "/api/stars" = "/api/stars" := by decide
  refine ⟨?_, ?_, ?_⟩
  · simp [serveHTTP, h1, matchRoutes, routes, corsMiddleware, corsHeaders, Conn.headerSet,
      Conn.writeHeader, ResponseWriter.headerSet, ResponseWriter.writeHeader]
  · simp [serveHTTP, h2, matchRoutes, routes, Conn.writeHeader, ResponseWriter.writeHeader]
  · simp [serveHTTP, h3, matchRoutes, routes, Conn.writeHeader, ResponseWriter.writeHeader]

/-- C5, as the claim states it, fails: a request that matches no route, or no
method of its route, is answered by the router itself (404, 405), and that
response carries no `Access-Control-Allow-Origin` header. -/
theorem unmatched_request_has_no_cors :
    (serveHTTP (constDB []) (bodyless "GET" "/api/planets")).w.finalStatus = 404 ∧
    (serveHTTP (constDB []) (bodyless "GET" "/api/planets")).w.header.lookup
      "Access-Control-Allow-Origin" = none ∧
    (serveHTTP (constDB []) (bodyless "GET" "/api/stars/search")).w.finalStatus = 405 ∧
    (serveHTTP (constDB []) (bodyless "GET" "/api/stars/search")).w.header.lookup
      "Access-Control-Allow-Origin" = none := by
  decide

theorem writeHeader_header (w : ResponseWriter) (code : Nat) :
    (w.writeHeader code).header = w.header := by
  unfold ResponseWriter.writeHeader
  split <;> rfl

theorem encode_header (w : ResponseWriter) (e : Response) : (w.encode e).header = w.header := by
  unfold ResponseWriter.encode
  split <;> rfl

theorem healthCheck_header (c : Conn) (r : Request) :
    (healthCheck c r).w.header = (c.w.headerSet "Content-Type" "application/json").header := by
  simp [healthCheck, Conn.headerSet, Conn.encode, encode_header]

theorem getAllStars_header (db : DB) (c : Conn) (r : Request) :
    (getAllStars db c r).w.header
      = (c.w.headerSet "Content-Type" "application/json").header := by
  rw [getAllStars_outcome]
  cases db allStarsQuery [] <;>
    simp [Conn.headerSet, Conn.encode, Conn.query, Conn.writeHeader, encode_header,
      writeHeader_header]

theorem getStarSearch_header (db : DB) (c : Conn) (r : Request) :
    (getStarSearch db c r).w.header
      = (c.w.headerSet "Content-Type" "application/json").header := by
  cases hdec : r.decoded with
  | error e =>
    simp [getStarSearch, hdec, Conn.headerSet, Conn.encode, Conn.writeHeader, encode_header,
      writeHeader_header]
  | ok sr =>
    obtain ⟨field, value⟩ := sr
    by_cases he : field = "" ∨ value = ""
    · simp [getStarSearch, hdec, he, Conn.headerSet, Conn.encode, Conn.writeHeader,
        encode_header, writeHeader_header]
    · cases hq : searchQuery field with
      | none =>
        simp [getStarSearch, hdec, he, hq, Conn.headerSet, Conn.encode, Conn.writeHeader,
          encode_header, writeHeader_header]
      | some q =>
        have hvalue : value ≠ "" := fun h => he (Or.inr h)
        rw [getStarSearch_dispatch db c r field value q hdec hvalue hq]
        cases db q [value] <;>
          simp [Conn.headerSet, Conn.encode, Conn.query, Conn.writeHeader, encode_header,
            writeHeader_header]

/-- A request matches a route of the table only when its method and path are
registered. -/
theorem matchRoutes_found (req : Request) (rt : Route)
    (h : matchRoutes req routes false = .found rt) :
    registered req.method req.path = true := by
  simp only [matchRoutes, routes] at h
  simp only [registered, routes, List.any_cons, List.any_nil, Bool.or_false, Bool.or_eq_true,
    decide_eq_true_eq]
  split_ifs at h with h1 h2 h3 h4 h5 h6 <;> simp_all

/-- C5, amended: a response carries the four CORS headers, with the values the
middleware sets, when the request matches a registered route and one of its
registered methods (GET `/health`, POST or OPTIONS `/api/stars/search`, GET
`/api/stars`); the router's own response to any other request (301, 404, 405)
carries none of the four. -/
theorem cors_headers_by_registration (db : DB) (req : Request) :
    (registered req.method req.path = true →
      ∀ h ∈ corsHeaders, (serveHTTP db req).w.header.lookup h.1 = some h.2) ∧
    (registered req.method req.path = false →
      ∀ h ∈ corsHeaders, (serveHTTP db req).w.header.lookup h.1 = none) := by
  have h1 : cleanPath "/api/stars/search" = "/api/stars/search" := by decide
  have h2 : cleanPath "/health" = "/health" := by decide
  have h3 : cleanPath "/api/stars" = "/api/stars" := by decide
  constructor
  · intro hreg
    obtain ⟨method, path, decoded, urlWithPath⟩ := req
    simp only [registered, routes, List.any_cons, List.any_nil, Bool.or_false, Bool.or_eq_true,
      decide_eq_true_eq, List.mem_cons, List.mem_singleton, List.not_mem_nil, or_false] at hreg
    rcases hreg with ⟨hp, hm⟩ | ⟨hp, hm | hm⟩ | ⟨hp, hm⟩ <;> subst hp <;> subst hm
    · simp [serveHTTP, h2, matchRoutes, routes, corsMiddleware, healthCheck_header, corsHeaders,
        Conn.headerSet, ResponseWriter.headerSet, List.lookup]
    · simp [serveHTTP, h1, matchRoutes, routes, corsMiddleware, getStarSearch_header,
        corsHeaders, Conn.headerSet, ResponseWriter.headerSet, List.lookup]
    · simp [serveHTTP, h1, matchRoutes, routes, corsMiddleware, corsHeaders,
        Conn.headerSet, Conn.writeHeader, ResponseWriter.headerSet, ResponseWriter.writeHeader,
        List.lookup]
    · simp [serveHTTP, h3, matchRoutes, routes, corsMiddleware, getAllStars_header, corsHeaders,
        Conn.headerSet, ResponseWriter.headerSet, List.lookup]
  · intro hreg
    have hnot : ¬ registered req.method req.path = true := by simp [hreg]
    unfold serveHTTP
    by_cases hclean : cleanPath req.path = req.path
    · simp only [hclean, ne_eq, not_true_eq_false, if_false]
      cases hm : matchRoutes req routes false with
      | found rt => exact absurd (matchRoutes_found req rt hm) hnot
      | methodMismatch =>
        simp [Conn.writeHeader, ResponseWriter.writeHeader, List.lookup]
      | notFound =>
        simp [notFound, corsHeaders, Conn.headerSet, Conn.writeHeader,
          ResponseWriter.headerSet, ResponseWriter.writeHeader, ResponseWriter.write,
          List.lookup]
    · simp [hclean, corsHeaders, Conn.headerSet, Conn.writeHeader, ResponseWriter.headerSet,
        ResponseWriter.writeHeader, List.lookup]

theorem cors_headers_by_registration_witness :
    (serveHTTP (constDB [.ok rigel]) (bodyless "GET" "/api/stars")).w.header.lookup
      "Access-Control-Allow-Origin" = some "*" ∧
    (serveHTTP (constDB [.ok rigel]) (bodyless "DELETE" "/health")).w.header.lookup
      "Access-Control-Max-Age" = none :=
  ⟨(cors_headers_by_registration (constDB [.ok rigel]) (bodyless "GET" "/api/stars")).1
      (by decide) ("Access-Control-Allow-Origin", "*") (by simp [corsHeaders]),
    (cors_headers_by_registration (constDB [.ok rigel]) (bodyless "DELETE" "/health")).2
      (by decide) ("Access-Control-Max-Age", "3600") (by simp [corsHeaders])⟩

end Wildberries
